import Mathlib

/-!
Shallow embedding of `src/esp/sim/ReplayBatchRenderer.cpp` (habitat-sim):
the multi-environment batch replay orchestrator. External collaborators
(`gfx::replay::Player`, `scene::SceneManager`, `sensor::SensorFactory`,
`assets::ResourceManager`) are not part of the source tree; the operations
the orchestrator uses from them are modelled from the spec, each marked
`Modelled from the spec:` in its doc comment.
-/

namespace EspSim

/-- A 3-component translation vector; components are modelled as integers
(the claims are about which values flow where, not about float arithmetic). -/
structure Vec3 where
  x : Int
  y : Int
  z : Int
deriving DecidableEq, Repr

/-- A rotation quaternion; components are modelled as integers. -/
structure Quaternion where
  w : Int
  x : Int
  y : Int
  z : Int
deriving DecidableEq, Repr

/-- A named user transform recorded in a keyframe: translation and rotation. -/
structure UserTransform where
  translation : Vec3
  rotation : Quaternion
deriving DecidableEq, Repr

/-- Modelled from the spec: a keyframe carries (among asset and lighting
directives, which are external side effects outside this layer's observable
state) a mapping from a name to a recorded user transform. -/
structure Keyframe where
  userTransforms : List (String × UserTransform)
deriving DecidableEq, Repr

/-- Modelled from the spec: `gfx::replay::Player` is a stateful replay engine
holding zero-or-one current keyframe in this design. -/
structure Player where
  keyframes : List Keyframe
deriving DecidableEq, Repr

/-- `Player::getNumKeyframes`. -/
def Player.getNumKeyframes (p : Player) : Nat :=
  p.keyframes.length

/-- Modelled from the spec: `Player::setSingleKeyframe` replaces the player's
held keyframe state with exactly the given keyframe (replace, not merge). -/
def Player.setSingleKeyframe (p : Player) (k : Keyframe) : Player :=
  { p with keyframes := [k] }

/-- Modelled from the spec: `Player::close` releases the player's replay
state. -/
def Player.close (p : Player) : Player :=
  { p with keyframes := [] }

/-- Modelled from the spec: `Player::getUserTransform` looks up a user
transform by name in the current keyframe, reporting whether it was found. -/
def Player.getUserTransform (p : Player) (name : String) : Option UserTransform :=
  match p.keyframes with
  | [] => none
  | k :: _ => k.userTransforms.lookup name

/-- The transform state of a sensor's scene-graph node: the translation and
rotation settable via `node().setTranslation` / `node().setRotation`. -/
structure SensorNode where
  translation : Vec3
  rotation : Quaternion
deriving DecidableEq, Repr

/-- Initial (identity) transform of a freshly created sensor node. -/
def SensorNode.init : SensorNode :=
  { translation := ⟨0, 0, 0⟩, rotation := ⟨1, 0, 0, 0⟩ }

/-- `ReplayBatchRenderer::EnvironmentRecord`: the per-environment bundle.
The sensor map is a `std::map` keyed by sensor name, modelled as an
association list in ascending key order. -/
structure EnvironmentRecord where
  player : Player
  sceneID : Int
  semanticSceneID : Int
  sensorParentNode : Nat
  sensorMap : List (String × SensorNode)
deriving DecidableEq, Repr

/-- Modelled from the spec: `scene::SceneManager`, a store of independent
scene graphs addressed by opaque integer id, plus a node allocator for
root-relative child nodes. -/
structure SceneManager where
  numGraphs : Nat
  nextNode : Nat
deriving DecidableEq, Repr

/-- Modelled from the spec: `SceneManager::initSceneGraph` creates a new scene
graph and returns its fresh id. -/
def SceneManager.initSceneGraph (m : SceneManager) : Int × SceneManager :=
  ((m.numGraphs : Int), { m with numGraphs := m.numGraphs + 1 })

/-- Modelled from the spec: creating a child of a scene graph's root node
yields a fresh node identity. -/
def SceneManager.createChild (m : SceneManager) : Nat × SceneManager :=
  (m.nextNode, { m with nextNode := m.nextNode + 1 })

/-- `ID_UNDEFINED` from `esp/core/Esp.h`. -/
def ID_UNDEFINED : Int := -1

/-- `ReplayBatchRendererConfiguration`: sensor specifications are modelled by
the sensor names (uuids) they resolve to. -/
structure ReplayBatchRendererConfiguration where
  numEnvironments : Int
  sensorSpecifications : List String
  forceSeparateSemanticSceneGraph : Bool
  gpuDeviceId : Int
  leaveContextWithBackgroundRenderer : Bool
deriving DecidableEq, Repr

/-- Ordered-map insertion of one sensor under its name, as `std::map`
emplacement does: keys kept in ascending order, an already-present key is
left unchanged. -/
def mapInsert (name : String) (s : SensorNode) :
    List (String × SensorNode) → List (String × SensorNode)
  | [] => [(name, s)]
  | (n, t) :: rest =>
    if name < n then (name, s) :: (n, t) :: rest
    else if name = n then (n, t) :: rest
    else (n, t) :: mapInsert name s rest

/-- Modelled from the spec: `sensor::SensorFactory::createSensors` instantiates
one sensor per specification, attached under the given parent node, and
returns them as a `std::map` keyed by sensor name. -/
def createSensors (specs : List String) : List (String × SensorNode) :=
  specs.foldl (fun m n => mapInsert n SensorNode.init m) []

/-- `ReplayBatchRenderer`: the orchestrator state — the configuration, the
environment records and the shared scene-graph store. The shared resource
manager, GPU context and renderer hold no state observable by the claims. -/
structure ReplayBatchRenderer where
  config : ReplayBatchRendererConfiguration
  envs : List EnvironmentRecord
  sceneManager : SceneManager
deriving DecidableEq, Repr

/-- One iteration block of the constructor loop, iterated `n` times: create the
scene graph (and a separate semantic one only if the flag requests it), create
the sensor-parent node, instantiate the sensors, store the record with a fresh
(empty) player. -/
def buildEnvs (cfg : ReplayBatchRendererConfiguration) :
    Nat → SceneManager → List EnvironmentRecord × SceneManager
  | 0, sm => ([], sm)
  | n + 1, sm =>
    let p1 := sm.initSceneGraph
    let p2 := if cfg.forceSeparateSemanticSceneGraph
              then p1.2.initSceneGraph
              else (p1.1, p1.2)
    let p3 := p2.2.createChild
    let env : EnvironmentRecord :=
      { player := { keyframes := [] }
        sceneID := p1.1
        semanticSceneID := p2.1
        sensorParentNode := p3.1
        sensorMap := createSensors cfg.sensorSpecifications }
    let rest := buildEnvs cfg n p3.2
    (env :: rest.1, rest.2)

/-- `ReplayBatchRenderer::ReplayBatchRenderer(cfg)`: build the shared stores,
then one environment record per index in `[0, numEnvironments)`. The loop
`for (envIdx = 0; envIdx < numEnvironments; ++envIdx)` runs
`numEnvironments.toNat` times (zero times when `numEnvironments <= 0`); the
code performs no validation of `numEnvironments`. GPU context and renderer
creation are external effects with no state observable by the claims. -/
def ReplayBatchRenderer.construct (cfg : ReplayBatchRendererConfiguration) :
    ReplayBatchRenderer :=
  let built := buildEnvs cfg cfg.numEnvironments.toNat { numGraphs := 0, nextNode := 0 }
  { config := cfg, envs := built.1, sceneManager := built.2 }

/-- Outcome of an orchestrator operation: normal return, a descriptive
`ESP_CHECK` failure carrying its message, or a fatal
`CORRADE_INTERNAL_ASSERT` contract violation. -/
inductive Outcome (α : Type) where
  | ok : α → Outcome α
  | espError : String → Outcome α
  | assertFail : Outcome α
deriving DecidableEq, Repr

/-- The guarded environment access every operation starts with:
`CORRADE_INTERNAL_ASSERT(envIndex >= 0 && envIndex < envs_.size())` followed
by `envs_[envIndex]`. Returns `none` exactly when the assertion fires. -/
def ReplayBatchRenderer.envAt (r : ReplayBatchRenderer) (envIndex : Int) :
    Option EnvironmentRecord :=
  if 0 ≤ envIndex then r.envs.get? envIndex.toNat else none

/-- `ReplayBatchRenderer::getEnvironmentSensorParentNode`. -/
def ReplayBatchRenderer.getEnvironmentSensorParentNode
    (r : ReplayBatchRenderer) (envIndex : Int) : Outcome Nat :=
  match r.envAt envIndex with
  | some env => .ok env.sensorParentNode
  | none => .assertFail

/-- `ReplayBatchRenderer::getEnvironmentSensors`. -/
def ReplayBatchRenderer.getEnvironmentSensors
    (r : ReplayBatchRenderer) (envIndex : Int) :
    Outcome (List (String × SensorNode)) :=
  match r.envAt envIndex with
  | some env => .ok env.sensorMap
  | none => .assertFail

/-- `ReplayBatchRenderer::getSceneGraph`: returns the environment's primary
scene graph; graph identity is its id in the shared store. -/
def ReplayBatchRenderer.getSceneGraph
    (r : ReplayBatchRenderer) (envIndex : Int) : Outcome Int :=
  match r.envAt envIndex with
  | some env => .ok env.sceneID
  | none => .assertFail

/-- `ReplayBatchRenderer::getSemanticSceneGraph`: resolves to the primary
scene graph when `semanticSceneID_ == ID_UNDEFINED`. -/
def ReplayBatchRenderer.getSemanticSceneGraph
    (r : ReplayBatchRenderer) (envIndex : Int) : Outcome Int :=
  match r.envAt envIndex with
  | some env =>
    .ok (if env.semanticSceneID = ID_UNDEFINED then env.sceneID else env.semanticSceneID)
  | none => .assertFail

/-- The `ESP_CHECK` message of `setSensorTransformsFromKeyframe` when the
player does not hold exactly one keyframe. -/
def noKeyframeMsg (envIndex : Int) : String :=
  "setSensorTransformsFromKeyframe: for environment " ++ toString envIndex ++
    ", you have not yet called setEnvironmentKeyframe."

/-- The `ESP_CHECK` message of `setSensorTransformsFromKeyframe` when a named
user transform is missing. -/
def missingTransformMsg (userName : String) (envIndex : Int) : String :=
  "setSensorTransformsFromKeyframe: couldn't find user transform \"" ++
    userName ++ "\" for environment " ++ toString envIndex ++ "."

/-- The sensor loop of `setSensorTransformsFromKeyframe`: for each sensor in
map order, look up `prefix + sensorName`; if absent, stop with the check
failure (sensors already processed keep their new transforms); if present,
set the node's rotation and translation to the recorded values. Returns the
updated map and the error message, if any. -/
def applySensorTransforms (player : Player) (pfx : String) (envIndex : Int) :
    List (String × SensorNode) → List (String × SensorNode) × Option String
  | [] => ([], none)
  | (sensorName, node) :: rest =>
    let userName := pfx ++ sensorName
    match player.getUserTransform userName with
    | none => ((sensorName, node) :: rest, some (missingTransformMsg userName envIndex))
    | some t =>
      let rec2 := applySensorTransforms player pfx envIndex rest
      ((sensorName, { node with rotation := t.rotation, translation := t.translation })
         :: rec2.1, rec2.2)

/-- `ReplayBatchRenderer::setSensorTransformsFromKeyframe`: assert the index,
check the player holds exactly one keyframe, then run the sensor loop. The
returned state keeps whatever transforms were applied before a failure. -/
def ReplayBatchRenderer.setSensorTransformsFromKeyframe
    (r : ReplayBatchRenderer) (envIndex : Int) (pfx : String) :
    Outcome Unit × ReplayBatchRenderer :=
  match r.envAt envIndex with
  | none => (.assertFail, r)
  | some env =>
    if env.player.getNumKeyframes = 1 then
      let res := applySensorTransforms env.player pfx envIndex env.sensorMap
      let r2 := { r with envs := r.envs.set envIndex.toNat { env with sensorMap := res.1 } }
      match res.2 with
      | none => (.ok (), r2)
      | some msg => (.espError msg, r2)
    else
      (.espError (noKeyframeMsg envIndex), r)

/-- `ReplayBatchRenderer::setEnvironmentKeyframe`: assert the index, parse the
serialized blob (`Player::keyframeFromString`, an external parser modelled as
an argument returning `none` on malformed input), and replace the player's
state with exactly the parsed keyframe via `Player::setSingleKeyframe`. -/
def ReplayBatchRenderer.setEnvironmentKeyframe
    (parse : String → Option Keyframe) (r : ReplayBatchRenderer)
    (envIndex : Int) (serKeyframe : String) :
    Outcome Unit × ReplayBatchRenderer :=
  match r.envAt envIndex with
  | none => (.assertFail, r)
  | some env =>
    match parse serKeyframe with
    | none => (.espError "keyframeFromString: failed to parse the serialized keyframe", r)
    | some k =>
      (.ok (),
        { r with envs := r.envs.set envIndex.toNat { env with player := env.player.setSingleKeyframe k } })

/-- `assets::AssetInfo` (external): identified by its file path. -/
structure AssetInfo where
  filepath : String
deriving DecidableEq, Repr

/-- `assets::RenderAssetInstanceCreationInfo` (external): identified by its
file path. -/
structure RenderAssetInstanceCreationInfo where
  filepath : String
deriving DecidableEq, Repr

/-- `ReplayBatchRenderer::loadAndCreateRenderAssetInstance`: assert the index,
then delegate to the shared resource manager (external, modelled as an
argument), passing both the primary and the semantic scene-graph ids. -/
def ReplayBatchRenderer.loadAndCreateRenderAssetInstance
    (cache : AssetInfo → RenderAssetInstanceCreationInfo → List Int → Nat)
    (r : ReplayBatchRenderer) (envIndex : Int)
    (assetInfo : AssetInfo) (creation : RenderAssetInstanceCreationInfo) :
    Outcome Nat :=
  match r.envAt envIndex with
  | none => .assertFail
  | some env => .ok (cache assetInfo creation [env.sceneID, env.semanticSceneID])

/-- An observable event of the destructor. -/
inductive Event where
  | closePlayer : Nat → Event
  | deleteSensor : Nat → String → Event
  | releaseResourceCache : Event
deriving DecidableEq, Repr

/-- The environment index an event belongs to (`none` for the shared
resource-cache release). -/
def Event.envOf : Event → Option Nat
  | .closePlayer i => some i
  | .deleteSensor i _ => some i
  | .releaseResourceCache => none

/-- The destructor's per-environment block: close the player, then delete
every sensor in the sensor map. -/
def destructEnv (i : Nat) (env : EnvironmentRecord) : List Event :=
  Event.closePlayer i :: env.sensorMap.map (fun p => Event.deleteSensor i p.1)

/-- The destructor's environment loop, starting at index `i0`. -/
def cleanupEvents : Nat → List EnvironmentRecord → List Event
  | _, [] => []
  | i0, env :: rest => destructEnv i0 env ++ cleanupEvents (i0 + 1) rest

/-- `ReplayBatchRenderer::~ReplayBatchRenderer` as its event trace: the loop
`for (envIdx = 0; envIdx < numEnvironments; ++envIdx)` over `envs_` (whose
length equals `numEnvironments` for a constructed orchestrator), then
`resourceManager_.reset()`. -/
def destructorTrace (r : ReplayBatchRenderer) : List Event :=
  cleanupEvents 0 r.envs ++ [Event.releaseResourceCache]

/-- The transform a sensor entry ends up with when its recorded user transform
is found in keyframe `k` under `pfx ++ name`; unchanged when absent. -/
def appliedNode (k : Keyframe) (pfx : String) (p : String × SensorNode) :
    String × SensorNode :=
  match k.userTransforms.lookup (pfx ++ p.1) with
  | some t => (p.1, { p.2 with rotation := t.rotation, translation := t.translation })
  | none => p

/-! ### Helper lemmas -/

lemma envAt_some_iff (r : ReplayBatchRenderer) (envIndex : Int) (env : EnvironmentRecord) :
    r.envAt envIndex = some env ↔
      0 ≤ envIndex ∧ r.envs.get? envIndex.toNat = some env := by
  unfold ReplayBatchRenderer.envAt
  by_cases h : 0 ≤ envIndex <;> simp [h]

lemma envAt_bound {r : ReplayBatchRenderer} {envIndex : Int} {env : EnvironmentRecord}
    (h : r.envAt envIndex = some env) : envIndex.toNat < r.envs.length := by
  obtain ⟨-, hget⟩ := (envAt_some_iff r envIndex env).mp h
  by_contra hc
  rw [List.get?_eq_none.mpr (Nat.le_of_not_lt hc)] at hget
  exact Option.noConfusion hget

lemma envAt_none_of_outOfRange (r : ReplayBatchRenderer) (envIndex : Int)
    (h : envIndex < 0 ∨ (r.envs.length : Int) ≤ envIndex) :
    r.envAt envIndex = none := by
  unfold ReplayBatchRenderer.envAt
  rcases h with h | h
  · rw [if_neg (not_le.mpr h)]
  · by_cases h0 : 0 ≤ envIndex
    · rw [if_pos h0]
      exact List.get?_eq_none.mpr (by omega)
    · rw [if_neg h0]

/-! ### Concrete instances used by the witnesses -/

/-- A one-environment configuration. -/
def cfgOne : ReplayBatchRendererConfiguration :=
  { numEnvironments := 1
    sensorSpecifications := ["cam0"]
    forceSeparateSemanticSceneGraph := false
    gpuDeviceId := 0
    leaveContextWithBackgroundRenderer := false }

/-- The orchestrator constructed from `cfgOne`. -/
def rOne : ReplayBatchRenderer := ReplayBatchRenderer.construct cfgOne

/-- The environment record `rOne` holds at index 0. -/
def envOne : EnvironmentRecord :=
  { player := { keyframes := [] }
    sceneID := 0
    semanticSceneID := 0
    sensorParentNode := 0
    sensorMap := [("cam0", SensorNode.init)] }

/-- A concrete recorded user transform. -/
def utOne : UserTransform :=
  { translation := ⟨1, 2, 3⟩, rotation := ⟨0, 1, 0, 0⟩ }

/-- A concrete keyframe recording a user transform named `"t_cam0"`. -/
def kfOne : Keyframe := { userTransforms := [("t_cam0", utOne)] }

/-- A configuration with zero environments. -/
def cfgZero : ReplayBatchRendererConfiguration :=
  { numEnvironments := 0
    sensorSpecifications := ["cam0"]
    forceSeparateSemanticSceneGraph := false
    gpuDeviceId := 0
    leaveContextWithBackgroundRenderer := false }

/-! ### Claim theorems -/

/-- C2: with a valid environment index whose player holds zero keyframes,
`setSensorTransformsFromKeyframe` fails with the descriptive `ESP_CHECK`
error naming the environment index and telling the caller to call
`setEnvironmentKeyframe` first, and the orchestrator state — in particular
every sensor transform — is unchanged. -/
theorem setSensorTransforms_noKeyframe_error
    (r : ReplayBatchRenderer) (envIndex : Int) (pfx : String)
    (env : EnvironmentRecord)
    (henv : r.envAt envIndex = some env)
    (hzero : env.player.keyframes = []) :
    r.setSensorTransformsFromKeyframe envIndex pfx =
      (.espError (noKeyframeMsg envIndex), r) ∧
    noKeyframeMsg envIndex =
      "setSensorTransformsFromKeyframe: for environment " ++ toString envIndex ++
        ", you have not yet called setEnvironmentKeyframe." := by
  constructor
  · have hnum : ¬ env.player.getNumKeyframes = 1 := by
      simp [Player.getNumKeyframes, hzero]
    simp only [ReplayBatchRenderer.setSensorTransformsFromKeyframe, henv]
    rw [if_neg hnum]
  · rfl

/-- Witness for C2 at a concrete orchestrator. -/
theorem setSensorTransforms_noKeyframe_error_witness :
    rOne.envAt 0 = some envOne ∧ envOne.player.keyframes = [] ∧
    (rOne.setSensorTransformsFromKeyframe 0 "t_" =
        (.espError (noKeyframeMsg 0), rOne) ∧
      noKeyframeMsg 0 =
        "setSensorTransformsFromKeyframe: for environment " ++ toString (0 : Int) ++
          ", you have not yet called setEnvironmentKeyframe.") :=
  ⟨by decide, rfl,
    setSensorTransforms_noKeyframe_error rOne 0 "t_" envOne (by decide) rfl⟩

/-- C5: with a valid environment index and a blob the external parser turns
into keyframe `k`, `setEnvironmentKeyframe` succeeds and replaces the
environment's player state with exactly the one keyframe `k`: afterwards the
player holds exactly `[k]`, any previously held keyframe discarded, and no
other orchestrator state changes. -/
theorem setEnvironmentKeyframe_replacesKeyframe
    (parse : String → Option Keyframe) (r : ReplayBatchRenderer)
    (envIndex : Int) (blob : String) (env : EnvironmentRecord) (k : Keyframe)
    (henv : r.envAt envIndex = some env) (hparse : parse blob = some k) :
    r.setEnvironmentKeyframe parse envIndex blob =
      (.ok (),
        { r with envs := (r.envs.set envIndex.toNat
            { env with player := { keyframes := [k] } }) }) ∧
    (r.setEnvironmentKeyframe parse envIndex blob).2.envAt envIndex =
      some { env with player := { keyframes := [k] } } := by
  have h1 : r.setEnvironmentKeyframe parse envIndex blob =
      (.ok (),
        { r with envs := (r.envs.set envIndex.toNat
            { env with player := { keyframes := [k] } }) }) := by
    simp only [ReplayBatchRenderer.setEnvironmentKeyframe, henv, hparse,
      Player.setSingleKeyframe]
  refine ⟨h1, ?_⟩
  obtain ⟨h0, -⟩ := (envAt_some_iff r envIndex env).mp henv
  rw [h1]
  exact (envAt_some_iff _ envIndex _).mpr
    ⟨h0, List.get?_set_eq_of_lt _ (envAt_bound henv)⟩

/-- Witness for C5 at a concrete orchestrator, parser and blob. -/
theorem setEnvironmentKeyframe_replacesKeyframe_witness :
    rOne.envAt 0 = some envOne ∧ (fun _ : String => some kfOne) "blob" = some kfOne ∧
    (rOne.setEnvironmentKeyframe (fun _ => some kfOne) 0 "blob" =
      (.ok (),
        { rOne with envs := (rOne.envs.set (0 : Int).toNat
            { envOne with player := { keyframes := [kfOne] } }) }) ∧
    (rOne.setEnvironmentKeyframe (fun _ => some kfOne) 0 "blob").2.envAt 0 =
      some { envOne with player := { keyframes := [kfOne] } }) :=
  ⟨by decide, rfl,
    setEnvironmentKeyframe_replacesKeyframe (fun _ => some kfOne) rOne 0 "blob"
      envOne kfOne (by decide) rfl⟩

/-- C6: every index-addressed operation called with an out-of-range
environment index (negative, or at least the number of environments) hits the
`CORRADE_INTERNAL_ASSERT` contract check — a fatal assertion, not a silent
no-op and not a recoverable `ESP_CHECK` error — and the mutators leave the
state untouched. -/
theorem outOfRange_index_assertFail
    (parse : String → Option Keyframe)
    (cache : AssetInfo → RenderAssetInstanceCreationInfo → List Int → Nat)
    (r : ReplayBatchRenderer) (envIndex : Int) (blob pfx : String)
    (assetInfo : AssetInfo) (creation : RenderAssetInstanceCreationInfo)
    (h : envIndex < 0 ∨ (r.envs.length : Int) ≤ envIndex) :
    r.setEnvironmentKeyframe parse envIndex blob = (.assertFail, r) ∧
    r.setSensorTransformsFromKeyframe envIndex pfx = (.assertFail, r) ∧
    r.getEnvironmentSensorParentNode envIndex = .assertFail ∧
    r.getEnvironmentSensors envIndex = .assertFail ∧
    r.getSceneGraph envIndex = .assertFail ∧
    r.getSemanticSceneGraph envIndex = .assertFail ∧
    r.loadAndCreateRenderAssetInstance cache envIndex assetInfo creation =
      .assertFail := by
  have hn := envAt_none_of_outOfRange r envIndex h
  refine ⟨?_, ?_, ?_, ?_, ?_, ?_, ?_⟩ <;>
    simp only [ReplayBatchRenderer.setEnvironmentKeyframe,
      ReplayBatchRenderer.setSensorTransformsFromKeyframe,
      ReplayBatchRenderer.getEnvironmentSensorParentNode,
      ReplayBatchRenderer.getEnvironmentSensors,
      ReplayBatchRenderer.getSceneGraph,
      ReplayBatchRenderer.getSemanticSceneGraph,
      ReplayBatchRenderer.loadAndCreateRenderAssetInstance, hn]

/-- Witness for C6 at a concrete orchestrator and index `5 ≥ N = 1`. -/
theorem outOfRange_index_assertFail_witness :
    ((5 : Int) < 0 ∨ (rOne.envs.length : Int) ≤ 5) ∧
    (rOne.setEnvironmentKeyframe (fun _ => none) 5 "blob" = (.assertFail, rOne) ∧
    rOne.setSensorTransformsFromKeyframe 5 "t_" = (.assertFail, rOne) ∧
    rOne.getEnvironmentSensorParentNode 5 = .assertFail ∧
    rOne.getEnvironmentSensors 5 = .assertFail ∧
    rOne.getSceneGraph 5 = .assertFail ∧
    rOne.getSemanticSceneGraph 5 = .assertFail ∧
    rOne.loadAndCreateRenderAssetInstance (fun _ _ _ => 0) 5 ⟨"a"⟩ ⟨"a"⟩ =
      .assertFail) :=
  ⟨by decide,
    outOfRange_index_assertFail (fun _ => none) (fun _ _ _ => 0) rOne 5 "blob"
      "t_" ⟨"a"⟩ ⟨"a"⟩ (by decide)⟩

/-- C7 counterexample: at `numEnvironments = 0` the constructor performs no
validation and completes normally — the environment loop runs zero times —
yielding a usable orchestrator with zero environments and no scene graphs,
contrary to the claim that construction fails fast with a descriptive
error. -/
theorem construct_zeroEnvironments_completes :
    ReplayBatchRenderer.construct cfgZero =
      { config := cfgZero, envs := [],
        sceneManager := { numGraphs := 0, nextNode := 0 } } := by
  rfl

/-- C7 (amended): constructing with `numEnvironments ≤ 0` is not rejected:
the constructor completes, the per-environment loop runs zero times, and the
resulting orchestrator has zero environments and an empty scene-graph
store. -/
theorem construct_nonpositiveEnvironments
    (cfg : ReplayBatchRendererConfiguration) (h : cfg.numEnvironments ≤ 0) :
    (ReplayBatchRenderer.construct cfg).envs = [] ∧
    (ReplayBatchRenderer.construct cfg).config = cfg ∧
    (ReplayBatchRenderer.construct cfg).sceneManager =
      { numGraphs := 0, nextNode := 0 } := by
  have ht : cfg.numEnvironments.toNat = 0 := by omega
  unfold ReplayBatchRenderer.construct
  rw [ht]
  exact ⟨rfl, rfl, rfl⟩

/-- Witness for the amended C7 at the concrete zero-environment
configuration. -/
theorem construct_nonpositiveEnvironments_witness :
    cfgZero.numEnvironments ≤ 0 ∧
    ((ReplayBatchRenderer.construct cfgZero).envs = [] ∧
    (ReplayBatchRenderer.construct cfgZero).config = cfgZero ∧
    (ReplayBatchRenderer.construct cfgZero).sceneManager =
      { numGraphs := 0, nextNode := 0 }) :=
  ⟨by decide, construct_nonpositiveEnvironments cfgZero (by decide)⟩

/-- C9: `setEnvironmentKeyframe` and `setSensorTransformsFromKeyframe` on
environment `envIndex` leave every other environment record `j` — its player,
sensor map and transforms, scene-graph ids and sensor-parent node — entirely
unchanged, whatever the outcome; the shared configuration and scene-graph
store are never touched either. -/
theorem mutators_preserve_other_environments
    (parse : String → Option Keyframe) (r : ReplayBatchRenderer)
    (envIndex : Int) (blob pfx : String) (j : Nat)
    (hj : (j : Int) ≠ envIndex) :
    ((r.setEnvironmentKeyframe parse envIndex blob).2.envs.get? j = r.envs.get? j ∧
     (r.setEnvironmentKeyframe parse envIndex blob).2.config = r.config ∧
     (r.setEnvironmentKeyframe parse envIndex blob).2.sceneManager = r.sceneManager) ∧
    ((r.setSensorTransformsFromKeyframe envIndex pfx).2.envs.get? j = r.envs.get? j ∧
     (r.setSensorTransformsFromKeyframe envIndex pfx).2.config = r.config ∧
     (r.setSensorTransformsFromKeyframe envIndex pfx).2.sceneManager = r.sceneManager) := by
  cases henv : r.envAt envIndex with
  | none =>
    constructor <;>
      simp [ReplayBatchRenderer.setEnvironmentKeyframe,
        ReplayBatchRenderer.setSensorTransformsFromKeyframe, henv]
  | some env =>
    obtain ⟨h0, -⟩ := (envAt_some_iff r envIndex env).mp henv
    have hne : envIndex.toNat ≠ j := by
      intro he
      exact hj (by rw [← he, Int.toNat_of_nonneg h0])
    constructor
    · simp only [ReplayBatchRenderer.setEnvironmentKeyframe, henv]
      cases hp : parse blob with
      | none => exact ⟨rfl, rfl, rfl⟩
      | some k => exact ⟨List.get?_set_ne _ _ hne, rfl, rfl⟩
    · simp only [ReplayBatchRenderer.setSensorTransformsFromKeyframe, henv]
      by_cases hnum : env.player.getNumKeyframes = 1
      · rw [if_pos hnum]
        cases hres : (applySensorTransforms env.player pfx envIndex env.sensorMap).2 with
        | none => exact ⟨List.get?_set_ne _ _ hne, rfl, rfl⟩
        | some msg => exact ⟨List.get?_set_ne _ _ hne, rfl, rfl⟩
      · rw [if_neg hnum]
        exact ⟨rfl, rfl, rfl⟩

/-- Witness for C9: concrete orchestrator, mutating index 0, observing
index 1. -/
theorem mutators_preserve_other_environments_witness :
    ((1 : Nat) : Int) ≠ (0 : Int) ∧
    (((rOne.setEnvironmentKeyframe (fun _ => some kfOne) 0 "blob").2.envs.get? 1 =
        rOne.envs.get? 1 ∧
      (rOne.setEnvironmentKeyframe (fun _ => some kfOne) 0 "blob").2.config = rOne.config ∧
      (rOne.setEnvironmentKeyframe (fun _ => some kfOne) 0 "blob").2.sceneManager =
        rOne.sceneManager) ∧
     ((rOne.setSensorTransformsFromKeyframe 0 "t_").2.envs.get? 1 = rOne.envs.get? 1 ∧
      (rOne.setSensorTransformsFromKeyframe 0 "t_").2.config = rOne.config ∧
      (rOne.setSensorTransformsFromKeyframe 0 "t_").2.sceneManager = rOne.sceneManager)) :=
  ⟨by decide,
    mutators_preserve_other_environments (fun _ => some kfOne) rOne 0 "blob" "t_" 1
      (by decide)⟩

/-- If every sensor's recorded user transform is present, the sensor loop
applies all of them and reports no error. -/
lemma applySensorTransforms_allFound
    (player : Player) (pfx : String) (envIndex : Int) (k : Keyframe)
    (hkf : player.keyframes = [k]) (sensors : List (String × SensorNode))
    (hall : ∀ p ∈ sensors, (k.userTransforms.lookup (pfx ++ p.1)).isSome) :
    applySensorTransforms player pfx envIndex sensors =
      (sensors.map (appliedNode k pfx), none) := by
  induction sensors with
  | nil => rfl
  | cons p rest ih =>
    obtain ⟨name, node⟩ := p
    obtain ⟨t, ht⟩ := Option.isSome_iff_exists.mp
      (hall (name, node) (List.mem_cons_self _ _))
    have hub : player.getUserTransform (pfx ++ name) = some t := by
      simp [Player.getUserTransform, hkf, ht]
    have ihr := ih (fun p hp => hall p (List.mem_cons_of_mem _ hp))
    simp [applySensorTransforms, hub, ihr, appliedNode, ht]

/-- If the recorded transforms of `pre` are all present and the one of `s` is
missing, the sensor loop applies exactly `pre` and stops with the missing
transform check failure. -/
lemma applySensorTransforms_firstMissing
    (player : Player) (pfx : String) (envIndex : Int) (k : Keyframe)
    (hkf : player.keyframes = [k]) (s : String) (node : SensorNode)
    (post : List (String × SensorNode))
    (hmiss : k.userTransforms.lookup (pfx ++ s) = none)
    (pre : List (String × SensorNode))
    (hpre : ∀ p ∈ pre, (k.userTransforms.lookup (pfx ++ p.1)).isSome) :
    applySensorTransforms player pfx envIndex (pre ++ (s, node) :: post) =
      (pre.map (appliedNode k pfx) ++ (s, node) :: post,
        some (missingTransformMsg (pfx ++ s) envIndex)) := by
  induction pre with
  | nil =>
    have hub : player.getUserTransform (pfx ++ s) = none := by
      simp [Player.getUserTransform, hkf, hmiss]
    simp [applySensorTransforms, hub]
  | cons p rest ih =>
    obtain ⟨name, node2⟩ := p
    obtain ⟨t, ht⟩ := Option.isSome_iff_exists.mp
      (hpre (name, node2) (List.mem_cons_self _ _))
    have hub : player.getUserTransform (pfx ++ name) = some t := by
      simp [Player.getUserTransform, hkf, ht]
    have ihr := ih (fun p hp => hpre p (List.mem_cons_of_mem _ hp))
    simp [applySensorTransforms, hub, ihr, appliedNode, ht]

/-- The environment record of `rOne` once the keyframe `kfOne` has been set. -/
def envOneKf : EnvironmentRecord :=
  { envOne with player := { keyframes := [kfOne] } }

/-- `rOne` once the keyframe `kfOne` has been set for environment 0. -/
def rOneKf : ReplayBatchRenderer :=
  { rOne with envs := [envOneKf] }

/-- C1: with a valid environment index, a player holding exactly one keyframe,
and a keyframe recording a user transform named `pfx ++ s` for every sensor
`s` of the environment's sensor map, `setSensorTransformsFromKeyframe`
succeeds and sets each sensor's node translation and rotation to exactly the
recorded translation and rotation (the map is rewritten by `appliedNode`,
which copies the recorded values verbatim onto the node, as the final
conjunct makes explicit). -/
theorem setSensorTransforms_roundTrip
    (r : ReplayBatchRenderer) (envIndex : Int) (pfx : String)
    (env : EnvironmentRecord) (k : Keyframe)
    (henv : r.envAt envIndex = some env)
    (hkf : env.player.keyframes = [k])
    (hall : ∀ p ∈ env.sensorMap, (k.userTransforms.lookup (pfx ++ p.1)).isSome) :
    r.setSensorTransformsFromKeyframe envIndex pfx =
      (.ok (),
        { r with envs := (r.envs.set envIndex.toNat
            { env with sensorMap := env.sensorMap.map (appliedNode k pfx) }) }) ∧
    ∀ p ∈ env.sensorMap, ∀ t, k.userTransforms.lookup (pfx ++ p.1) = some t →
      appliedNode k pfx p = (p.1, { translation := t.translation, rotation := t.rotation }) := by
  constructor
  · have happ := applySensorTransforms_allFound env.player pfx envIndex k hkf
      env.sensorMap hall
    have hnum : env.player.getNumKeyframes = 1 := by
      simp [Player.getNumKeyframes, hkf]
    simp only [ReplayBatchRenderer.setSensorTransformsFromKeyframe, henv]
    rw [if_pos hnum]
    simp [happ]
  · intro p _ t ht
    simp [appliedNode, ht]

/-- Witness for C1: every sensor of the concrete environment gets exactly the
recorded transform. -/
theorem setSensorTransforms_roundTrip_witness :
    rOneKf.envAt 0 = some envOneKf ∧
    envOneKf.player.keyframes = [kfOne] ∧
    (∀ p ∈ envOneKf.sensorMap, (kfOne.userTransforms.lookup ("t_" ++ p.1)).isSome) ∧
    (rOneKf.setSensorTransformsFromKeyframe 0 "t_" =
      (.ok (),
        { rOneKf with envs := (rOneKf.envs.set (0 : Int).toNat
            { envOneKf with sensorMap := envOneKf.sensorMap.map (appliedNode kfOne "t_") }) }) ∧
    ∀ p ∈ envOneKf.sensorMap, ∀ t, kfOne.userTransforms.lookup ("t_" ++ p.1) = some t →
      appliedNode kfOne "t_" p = (p.1, { translation := t.translation, rotation := t.rotation })) :=
  ⟨by decide, rfl, by decide,
    setSensorTransforms_roundTrip rOneKf 0 "t_" envOneKf kfOne (by decide) rfl
      (by decide)⟩

/-- A one-environment, two-sensor configuration. -/
def cfgTwo : ReplayBatchRendererConfiguration :=
  { numEnvironments := 1
    sensorSpecifications := ["cam0", "cam1"]
    forceSeparateSemanticSceneGraph := false
    gpuDeviceId := 0
    leaveContextWithBackgroundRenderer := false }

/-- A two-sensor environment record holding keyframe `kfOne`, which records a
transform for `"cam0"` but none for `"cam1"`. -/
def envTwo : EnvironmentRecord :=
  { player := { keyframes := [kfOne] }
    sceneID := 0
    semanticSceneID := 0
    sensorParentNode := 0
    sensorMap := [("cam0", SensorNode.init), ("cam1", SensorNode.init)] }

/-- The orchestrator holding `envTwo`. -/
def rTwo : ReplayBatchRenderer :=
  { config := cfgTwo, envs := [envTwo], sceneManager := { numGraphs := 1, nextNode := 1 } }

/-- C3: with one keyframe held and the sensor map splitting as
`pre ++ (s, node) :: post` where every sensor of `pre` has its recorded
transform and `pfx ++ s` is missing, `setSensorTransformsFromKeyframe` fails
with the descriptive error naming the missing transform name and the
environment index, and the resulting state keeps the transforms applied to
`pre` while `s` and the sensors after it are unchanged — partial application
without rollback. -/
theorem setSensorTransforms_missingTransform
    (r : ReplayBatchRenderer) (envIndex : Int) (pfx : String)
    (env : EnvironmentRecord) (k : Keyframe) (pre : List (String × SensorNode))
    (s : String) (node : SensorNode) (post : List (String × SensorNode))
    (henv : r.envAt envIndex = some env)
    (hkf : env.player.keyframes = [k])
    (hmap : env.sensorMap = pre ++ (s, node) :: post)
    (hpre : ∀ p ∈ pre, (k.userTransforms.lookup (pfx ++ p.1)).isSome)
    (hmiss : k.userTransforms.lookup (pfx ++ s) = none) :
    r.setSensorTransformsFromKeyframe envIndex pfx =
      (.espError (missingTransformMsg (pfx ++ s) envIndex),
        { r with envs := (r.envs.set envIndex.toNat
            { env with sensorMap := pre.map (appliedNode k pfx) ++ (s, node) :: post }) }) ∧
    missingTransformMsg (pfx ++ s) envIndex =
      "setSensorTransformsFromKeyframe: couldn't find user transform \"" ++
        (pfx ++ s) ++ "\" for environment " ++ toString envIndex ++ "." := by
  constructor
  · have happ := applySensorTransforms_firstMissing env.player pfx envIndex k hkf
      s node post hmiss pre hpre
    have hnum : env.player.getNumKeyframes = 1 := by
      simp [Player.getNumKeyframes, hkf]
    simp only [ReplayBatchRenderer.setSensorTransformsFromKeyframe, henv]
    rw [if_pos hnum]
    rw [hmap, happ]
  · rfl

/-- Witness for C3: the `"cam1"` transform is missing; `"cam0"` keeps its new
transform. -/
theorem setSensorTransforms_missingTransform_witness :
    rTwo.envAt 0 = some envTwo ∧
    envTwo.player.keyframes = [kfOne] ∧
    envTwo.sensorMap = [("cam0", SensorNode.init)] ++ ("cam1", SensorNode.init) :: [] ∧
    (∀ p ∈ [("cam0", SensorNode.init)], (kfOne.userTransforms.lookup ("t_" ++ p.1)).isSome) ∧
    kfOne.userTransforms.lookup ("t_" ++ "cam1") = none ∧
    (rTwo.setSensorTransformsFromKeyframe 0 "t_" =
      (.espError (missingTransformMsg ("t_" ++ "cam1") 0),
        { rTwo with envs := (rTwo.envs.set (0 : Int).toNat
            { envTwo with sensorMap :=
                ([("cam0", SensorNode.init)].map (appliedNode kfOne "t_") ++
                  ("cam1", SensorNode.init) :: []) }) }) ∧
    missingTransformMsg ("t_" ++ "cam1") 0 =
      "setSensorTransformsFromKeyframe: couldn't find user transform \"" ++
        ("t_" ++ "cam1") ++ "\" for environment " ++ toString (0 : Int) ++ ".") :=
  ⟨by decide, rfl, rfl, by decide, by decide,
    setSensorTransforms_missingTransform rTwo 0 "t_" envTwo kfOne
      [("cam0", SensorNode.init)] "cam1" SensorNode.init [] (by decide) rfl rfl
      (by decide) (by decide)⟩

/-- Every entry of `mapInsert name s m` is the inserted pair or one of `m`. -/
lemma mem_mapInsert (name : String) (s : SensorNode)
    (m : List (String × SensorNode)) :
    ∀ p ∈ mapInsert name s m, p = (name, s) ∨ p ∈ m := by
  induction m with
  | nil => simp [mapInsert]
  | cons q rest ih =>
    obtain ⟨n, t⟩ := q
    intro p hp
    by_cases h1 : name < n
    · simp only [mapInsert, if_pos h1, List.mem_cons] at hp
      rcases hp with hp | hp | hp
      · exact Or.inl hp
      · exact Or.inr (by simp [hp])
      · exact Or.inr (List.mem_cons_of_mem _ hp)
    · by_cases h2 : name = n
      · simp only [mapInsert, if_neg h1, if_pos h2] at hp
        exact Or.inr hp
      · simp only [mapInsert, if_neg h1, if_neg h2, List.mem_cons] at hp
        rcases hp with hp | hp
        · exact Or.inr (by simp [hp])
        · rcases ih p hp with hp' | hp'
          · exact Or.inl hp'
          · exact Or.inr (List.mem_cons_of_mem _ hp')

/-- `mapInsert` preserves the strict ascending order of the keys: the
`std::map` invariant. -/
lemma mapInsert_sorted (name : String) (s : SensorNode)
    (m : List (String × SensorNode))
    (h : List.Pairwise (fun a b => a.1 < b.1) m) :
    List.Pairwise (fun a b => a.1 < b.1) (mapInsert name s m) := by
  induction m with
  | nil => simp [mapInsert]
  | cons q rest ih =>
    obtain ⟨n, t⟩ := q
    obtain ⟨hhead, htail⟩ := List.pairwise_cons.mp h
    by_cases h1 : name < n
    · simp only [mapInsert, if_pos h1]
      exact List.pairwise_cons.mpr
        ⟨by
          intro b hb
          rcases List.mem_cons.mp hb with hb | hb
          · rw [hb]; exact h1
          · exact lt_trans h1 (hhead b hb), h⟩
    · by_cases h2 : name = n
      · simp only [mapInsert, if_neg h1, if_pos h2]
        exact h
      · simp only [mapInsert, if_neg h1, if_neg h2]
        have hn : n < name := by
          rcases lt_trichotomy name n with h' | h' | h'
          · exact absurd h' h1
          · exact absurd h' h2
          · exact h'
        exact List.pairwise_cons.mpr
          ⟨by
            intro b hb
            rcases mem_mapInsert name s rest b hb with hb' | hb'
            · rw [hb']; exact hn
            · exact hhead b hb', ih htail⟩

/-- The sensor maps built by `createSensors` carry the `std::map` invariant:
keys in strictly ascending lexicographic order. -/
lemma createSensors_sorted (specs : List String) :
    List.Pairwise (fun a b => a.1 < b.1) (createSensors specs) := by
  suffices h : ∀ m, List.Pairwise (fun (a b : String × SensorNode) => a.1 < b.1) m →
      List.Pairwise (fun a b => a.1 < b.1)
        (specs.foldl (fun m n => mapInsert n SensorNode.init m) m) by
    exact h [] (by simp)
  induction specs with
  | nil => exact fun m hm => hm
  | cons sp rest ih =>
    intro m hm
    exact ih _ (mapInsert_sorted sp SensorNode.init m hm)

/-- C10: the sensor loop walks the map in its key order, which is ascending
lexicographic order of sensor name (the `std::map` invariant established by
`createSensors_sorted`); so when it fails because `pfx ++ s` is missing,
exactly the sensors whose names are lexicographically smaller than `s` carry
their newly applied transform, and every other sensor is unchanged. -/
theorem setSensorTransforms_partial_lexicographic
    (r : ReplayBatchRenderer) (envIndex : Int) (pfx : String)
    (env : EnvironmentRecord) (k : Keyframe) (pre : List (String × SensorNode))
    (s : String) (node : SensorNode) (post : List (String × SensorNode))
    (henv : r.envAt envIndex = some env)
    (hkf : env.player.keyframes = [k])
    (hsort : List.Pairwise (fun a b => a.1 < b.1) env.sensorMap)
    (hmap : env.sensorMap = pre ++ (s, node) :: post)
    (hpre : ∀ p ∈ pre, (k.userTransforms.lookup (pfx ++ p.1)).isSome)
    (hmiss : k.userTransforms.lookup (pfx ++ s) = none) :
    r.setSensorTransformsFromKeyframe envIndex pfx =
      (.espError (missingTransformMsg (pfx ++ s) envIndex),
        { r with envs := (r.envs.set envIndex.toNat
            { env with sensorMap := (env.sensorMap.map
                (fun p => if p.1 < s then appliedNode k pfx p else p)) }) }) := by
  rw [hmap] at hsort
  obtain ⟨hpre', hrest, hcross⟩ := List.pairwise_append.mp hsort
  obtain ⟨hshead, -⟩ := List.pairwise_cons.mp hrest
  have hmapsEq : (pre ++ (s, node) :: post).map
      (fun p => if p.1 < s then appliedNode k pfx p else p) =
      pre.map (appliedNode k pfx) ++ (s, node) :: post := by
    rw [List.map_append, List.map_cons]
    have h1 : pre.map (fun p => if p.1 < s then appliedNode k pfx p else p) =
        pre.map (appliedNode k pfx) :=
      List.map_congr_left fun p hp =>
        if_pos (hcross p hp (s, node) (List.mem_cons_self _ _))
    have h2 : (if (s, node).1 < s then appliedNode k pfx (s, node) else (s, node)) =
        (s, node) := if_neg (lt_irrefl s)
    have h3 : post.map (fun p => if p.1 < s then appliedNode k pfx p else p) =
        post :=
      calc post.map (fun p => if p.1 < s then appliedNode k pfx p else p)
          = post.map (fun p => p) :=
            List.map_congr_left fun p hp => if_neg (lt_asymm (hshead p hp))
        _ = post := List.map_id' post
    rw [h1, h2, h3]
  have happ := applySensorTransforms_firstMissing env.player pfx envIndex k hkf
    s node post hmiss pre hpre
  have hnum : env.player.getNumKeyframes = 1 := by
    simp [Player.getNumKeyframes, hkf]
  simp only [ReplayBatchRenderer.setSensorTransformsFromKeyframe, henv]
  rw [if_pos hnum]
  rw [hmap, happ, hmapsEq]

/-- Witness for C10: with sorted sensors `"cam0" < "cam1"` and `"cam1"`
missing, exactly `"cam0"` is updated. -/
theorem setSensorTransforms_partial_lexicographic_witness :
    rTwo.envAt 0 = some envTwo ∧
    envTwo.player.keyframes = [kfOne] ∧
    List.Pairwise (fun (a b : String × SensorNode) => a.1 < b.1) envTwo.sensorMap ∧
    envTwo.sensorMap = [("cam0", SensorNode.init)] ++ ("cam1", SensorNode.init) :: [] ∧
    (∀ p ∈ [("cam0", SensorNode.init)], (kfOne.userTransforms.lookup ("t_" ++ p.1)).isSome) ∧
    kfOne.userTransforms.lookup ("t_" ++ "cam1") = none ∧
    rTwo.setSensorTransformsFromKeyframe 0 "t_" =
      (.espError (missingTransformMsg ("t_" ++ "cam1") 0),
        { rTwo with envs := (rTwo.envs.set (0 : Int).toNat
            { envTwo with sensorMap := (envTwo.sensorMap.map
                (fun p => if p.1 < "cam1" then appliedNode kfOne "t_" p else p)) }) }) :=
  ⟨by decide, rfl,
    by
      simp only [envTwo, List.pairwise_cons, List.mem_singleton]
      refine ⟨?_, by simp⟩
      intro b hb
      rw [hb, String.lt_iff_toList_lt]
      decide,
    rfl, by decide, by decide,
    setSensorTransforms_partial_lexicographic rTwo 0 "t_" envTwo kfOne
      [("cam0", SensorNode.init)] "cam1" SensorNode.init [] (by decide) rfl
      (by
        simp only [envTwo, List.pairwise_cons, List.mem_singleton]
        refine ⟨?_, by simp⟩
        intro b hb
        rw [hb, String.lt_iff_toList_lt]
        decide)
      rfl (by decide) (by decide)⟩

/-- Construction invariant: every environment record built by the constructor
loop has a nonnegative primary scene-graph id, and its semantic id is the
primary id when the flag is off, a distinct fresh id (the successor) when the
flag is on. -/
lemma buildEnvs_ids (cfg : ReplayBatchRendererConfiguration) :
    ∀ (n : Nat) (sm : SceneManager) (env : EnvironmentRecord),
      env ∈ (buildEnvs cfg n sm).1 →
      0 ≤ env.sceneID ∧
      (cfg.forceSeparateSemanticSceneGraph = false →
        env.semanticSceneID = env.sceneID) ∧
      (cfg.forceSeparateSemanticSceneGraph = true →
        env.semanticSceneID = env.sceneID + 1) := by
  intro n
  induction n with
  | zero =>
    intro sm env h
    simp [buildEnvs] at h
  | succ m ih =>
    intro sm env h
    by_cases hf : cfg.forceSeparateSemanticSceneGraph <;>
      simp only [buildEnvs, hf, if_true, if_false, SceneManager.initSceneGraph,
        SceneManager.createChild, List.mem_cons] at h <;>
      rcases h with h | h
    · refine h ▸ ⟨by positivity, fun hc => by simp [hf] at hc, fun _ => ?_⟩
      push_cast
      ring
    · exact ih _ env h
    · exact h ▸ ⟨by positivity, fun _ => rfl, fun hc => by simp [hf] at hc⟩
    · exact ih _ env h

/-- C4: on a constructed orchestrator, with the separate-semantic-graph flag
off, `getSceneGraph` and `getSemanticSceneGraph` return the same scene-graph
identity for every valid environment index; with the flag on they return
distinct identities; and whenever no distinct semantic id was assigned
(`semanticSceneID = sceneID`), the semantic accessor resolves to the primary
scene graph. -/
theorem getSemanticSceneGraph_identity
    (cfg : ReplayBatchRendererConfiguration) (envIndex : Int)
    (env : EnvironmentRecord)
    (henv : (ReplayBatchRenderer.construct cfg).envAt envIndex = some env) :
    (cfg.forceSeparateSemanticSceneGraph = false →
      (ReplayBatchRenderer.construct cfg).getSemanticSceneGraph envIndex =
        (ReplayBatchRenderer.construct cfg).getSceneGraph envIndex ∧
      (ReplayBatchRenderer.construct cfg).getSemanticSceneGraph envIndex =
        .ok env.sceneID) ∧
    (cfg.forceSeparateSemanticSceneGraph = true →
      ∃ a b, (ReplayBatchRenderer.construct cfg).getSceneGraph envIndex = .ok a ∧
        (ReplayBatchRenderer.construct cfg).getSemanticSceneGraph envIndex = .ok b ∧
        a ≠ b) ∧
    (env.semanticSceneID = env.sceneID →
      (ReplayBatchRenderer.construct cfg).getSemanticSceneGraph envIndex =
        .ok env.sceneID) := by
  have hmem : env ∈ (ReplayBatchRenderer.construct cfg).envs :=
    List.get?_mem ((envAt_some_iff _ envIndex env).mp henv).2
  obtain ⟨hpos, hfalse, htrue⟩ :=
    buildEnvs_ids cfg cfg.numEnvironments.toNat { numGraphs := 0, nextNode := 0 }
      env hmem
  refine ⟨?_, ?_, ?_⟩
  · intro hf
    have hsem := hfalse hf
    constructor <;>
      simp [ReplayBatchRenderer.getSemanticSceneGraph,
        ReplayBatchRenderer.getSceneGraph, henv, hsem]
  · intro hf
    have hsem := htrue hf
    refine ⟨env.sceneID, env.semanticSceneID, ?_, ?_, ?_⟩
    · simp [ReplayBatchRenderer.getSceneGraph, henv]
    · have hne : ¬ env.semanticSceneID = ID_UNDEFINED := by
        rw [hsem, ID_UNDEFINED]
        omega
      simp [ReplayBatchRenderer.getSemanticSceneGraph, henv, hne]
    · rw [hsem]
      omega
  · intro hsem
    simp [ReplayBatchRenderer.getSemanticSceneGraph, henv, hsem]

/-- `cfgOne` with a separate semantic scene graph requested. -/
def cfgSep : ReplayBatchRendererConfiguration :=
  { cfgOne with forceSeparateSemanticSceneGraph := true }

/-- The environment record `construct cfgSep` holds at index 0: distinct
primary and semantic scene-graph ids. -/
def envSep : EnvironmentRecord :=
  { player := { keyframes := [] }
    sceneID := 0
    semanticSceneID := 1
    sensorParentNode := 0
    sensorMap := [("cam0", SensorNode.init)] }

/-- Witness for C4 at the concrete separate-semantic-graph orchestrator. -/
theorem getSemanticSceneGraph_identity_witness :
    (ReplayBatchRenderer.construct cfgSep).envAt 0 = some envSep ∧
    ((cfgSep.forceSeparateSemanticSceneGraph = false →
      (ReplayBatchRenderer.construct cfgSep).getSemanticSceneGraph 0 =
        (ReplayBatchRenderer.construct cfgSep).getSceneGraph 0 ∧
      (ReplayBatchRenderer.construct cfgSep).getSemanticSceneGraph 0 =
        .ok envSep.sceneID) ∧
    (cfgSep.forceSeparateSemanticSceneGraph = true →
      ∃ a b, (ReplayBatchRenderer.construct cfgSep).getSceneGraph 0 = .ok a ∧
        (ReplayBatchRenderer.construct cfgSep).getSemanticSceneGraph 0 = .ok b ∧
        a ≠ b) ∧
    (envSep.semanticSceneID = envSep.sceneID →
      (ReplayBatchRenderer.construct cfgSep).getSemanticSceneGraph 0 =
        .ok envSep.sceneID)) :=
  ⟨by decide, getSemanticSceneGraph_identity cfgSep 0 envSep (by decide)⟩

/-- Every event of an environment's cleanup block belongs to that
environment. -/
lemma destructEnv_envOf (i : Nat) (env : EnvironmentRecord) :
    ∀ e ∈ destructEnv i env, e.envOf = some i := by
  intro e he
  simp only [destructEnv, List.mem_cons] at he
  rcases he with he | he
  · rw [he]; rfl
  · obtain ⟨p, -, hpe⟩ := List.mem_map.mp he
    rw [← hpe]; rfl

/-- Every event of the cleanup loop starting at `i0` belongs to some
environment of index at least `i0`. -/
lemma mem_cleanupEvents_envOf :
    ∀ (envs : List EnvironmentRecord) (i0 : Nat) (e : Event),
      e ∈ cleanupEvents i0 envs → ∃ i, e.envOf = some i ∧ i0 ≤ i := by
  intro envs
  induction envs with
  | nil =>
    intro i0 e he
    simp [cleanupEvents] at he
  | cons env rest ih =>
    intro i0 e he
    simp only [cleanupEvents, List.mem_append] at he
    rcases he with he | he
    · exact ⟨i0, destructEnv_envOf i0 env e he, le_refl i0⟩
    · obtain ⟨i, hi, hle⟩ := ih (i0 + 1) e he
      exact ⟨i, hi, by omega⟩

/-- A list all of whose pairs satisfy `R` is pairwise `R`. -/
lemma pairwise_of_forall_pairs {α : Type} {R : α → α → Prop} :
    ∀ l : List α, (∀ a ∈ l, ∀ b ∈ l, R a b) → List.Pairwise R l := by
  intro l
  induction l with
  | nil => intro _; exact List.Pairwise.nil
  | cons a rest ih =>
    intro h
    exact List.Pairwise.cons
      (fun b hb => h a (List.mem_cons_self _ _) b (List.mem_cons_of_mem _ hb))
      (ih fun x hx y hy =>
        h x (List.mem_cons_of_mem _ hx) y (List.mem_cons_of_mem _ hy))

/-- The cleanup loop emits events in ascending environment-index order. -/
lemma cleanupEvents_pairwise :
    ∀ (envs : List EnvironmentRecord) (i0 : Nat),
      List.Pairwise
        (fun a b => ∀ ia ib, Event.envOf a = some ia → Event.envOf b = some ib → ia ≤ ib)
        (cleanupEvents i0 envs) := by
  intro envs
  induction envs with
  | nil => intro i0; exact List.Pairwise.nil
  | cons env rest ih =>
    intro i0
    refine List.pairwise_append.mpr ⟨?_, ih (i0 + 1), ?_⟩
    · refine pairwise_of_forall_pairs _ fun a ha b hb ia ib hia hib => ?_
      rw [destructEnv_envOf i0 env a ha] at hia
      rw [destructEnv_envOf i0 env b hb] at hib
      have h1 : ia = i0 := by injection hia with h; omega
      have h2 : ib = i0 := by injection hib with h; omega
      omega
    · intro a ha b hb ia ib hia hib
      rw [destructEnv_envOf i0 env a ha] at hia
      obtain ⟨i, hi, hle⟩ := mem_cleanupEvents_envOf rest (i0 + 1) b hb
      rw [hi] at hib
      have h1 : ia = i0 := by injection hia with h; omega
      have h2 : ib = i := by injection hib with h; omega
      omega

/-- The destructor closes each environment's player and deletes each of its
sensors. -/
lemma cleanupEvents_complete :
    ∀ (envs : List EnvironmentRecord) (i0 i : Nat) (env : EnvironmentRecord),
      envs.get? i = some env →
      Event.closePlayer (i0 + i) ∈ cleanupEvents i0 envs ∧
      ∀ p ∈ env.sensorMap, Event.deleteSensor (i0 + i) p.1 ∈ cleanupEvents i0 envs := by
  intro envs
  induction envs with
  | nil =>
    intro i0 i env h
    simp at h
  | cons e rest ih =>
    intro i0 i env h
    cases i with
    | zero =>
      have he : e = env := by injection h
      constructor
      · simp [cleanupEvents, destructEnv]
      · intro p hp
        rw [← he] at hp
        apply List.mem_append_left
        exact List.mem_cons_of_mem _ (List.mem_map.mpr ⟨p, hp, by rfl⟩)
    | succ j =>
      have hj : rest.get? j = some env := h
      obtain ⟨hclose, hdel⟩ := ih (i0 + 1) j env hj
      have harith : i0 + 1 + j = i0 + (j + 1) := by omega
      constructor
      · apply List.mem_append_right
        rw [← harith]
        exact hclose
      · intro p hp
        apply List.mem_append_right
        rw [← harith]
        exact hdel p hp

/-- C8: the destructor's event trace is the per-environment cleanup blocks in
ascending index order followed by the shared resource-cache release:
(1) the trace is exactly the cleanup events then the release; (2) every event
before the release belongs to some environment, so the cache is released only
after all per-environment cleanup, never before; (3) events occur in
ascending environment-index order; (4) for every environment, its player is
closed and every sensor of its sensor map is deleted during the cleanup
part. -/
theorem destructorTrace_order (r : ReplayBatchRenderer) :
    destructorTrace r = cleanupEvents 0 r.envs ++ [Event.releaseResourceCache] ∧
    (∀ e ∈ cleanupEvents 0 r.envs, e.envOf ≠ none) ∧
    List.Pairwise
      (fun a b => ∀ ia ib, Event.envOf a = some ia → Event.envOf b = some ib → ia ≤ ib)
      (destructorTrace r) ∧
    ∀ i env, r.envs.get? i = some env →
      Event.closePlayer i ∈ cleanupEvents 0 r.envs ∧
      ∀ p ∈ env.sensorMap, Event.deleteSensor i p.1 ∈ cleanupEvents 0 r.envs := by
  refine ⟨rfl, ?_, ?_, ?_⟩
  · intro e he hnone
    obtain ⟨i, hi, -⟩ := mem_cleanupEvents_envOf r.envs 0 e he
    rw [hnone] at hi
    exact Option.noConfusion hi
  · refine List.pairwise_append.mpr
      ⟨cleanupEvents_pairwise r.envs 0, List.pairwise_singleton _ _, ?_⟩
    intro a ha b hb ia ib hia hib
    rw [List.mem_singleton.mp hb] at hib
    exact Option.noConfusion hib
  · intro i env h
    have := cleanupEvents_complete r.envs 0 i env h
    simpa using this

end EspSim
